import Mathlib

/-!
# Verification of the video render service (src/render_api.py)

Shallow embedding of the job-orchestration core of the service:
the render-request model, the admission-controlled submission handler
`create_render_job`, the background job body `process_render_job`
(download video → download audio → encode → finalize, with a
failure handler and a guaranteed counter release), the downloader
`download_file_async`, and the encoder invoker `render_video`.

External effects (HTTP responses of the two downloads, the encoder
subprocess's exit code / stderr / output-file existence, the entropy
behind the truncated-UUID job identifier, and wall-clock timestamps)
are modelled as explicit inputs.  Job records are Python dicts with
string-valued `status`; the registry is a Python dict from job id to
record, modelled as an insertion-ordered association list where
inserting an existing key replaces its value in place.
-/

namespace RenderApi

/-- Environment-derived configuration (module-level constants in the source). -/
structure Config where
  FFMPEG_THREADS : Nat
  MAX_CONCURRENT_JOBS : Int
  TEMP_DIR : String
  OUTPUT_DIR : String

/-- A filesystem path, split as directory plus final component so that
`Path.name` (used for `output_file`) is directly available. -/
structure FsPath where
  dir : String
  name : String
deriving DecidableEq, Repr

/-- Render the path as a string (as `str(path)` does in the source). -/
def FsPath.str (p : FsPath) : String := p.dir ++ "/" ++ p.name

/-- The request body of POST /render (pydantic model `RenderRequest`);
URLs are kept as strings. -/
structure RenderRequest where
  video_url : String
  audio_url : String
  quality : String
deriving DecidableEq, Repr

/-- The source's pydantic default for the `quality` field: `quality: str = "high"`. -/
def defaultQuality : String := "high"

/-- Build a `RenderRequest` from the JSON fields of the POST body; an omitted
`quality` field takes the pydantic default. -/
def RenderRequest.fromFields (video_url audio_url : String)
    (quality : Option String) : RenderRequest :=
  ⟨video_url, audio_url, quality.getD defaultQuality⟩

/-- One entry of the `jobs_status` dict: the job record created at submission
and mutated in place by `process_render_job`.  `completed_at`, `output_file`
and `error` are keys that may be absent (`none`). -/
structure JobRecord where
  job_id : String
  status : String
  progress : Nat
  message : String
  created_at : String
  completed_at : Option String
  output_file : Option String
  error : Option String
  video_url : String
  audio_url : String
  quality : String
deriving DecidableEq, Repr

/-- Python-dict insertion into an insertion-ordered association list:
`d[k] = v` replaces the value of an existing key in place, otherwise
appends the new binding at the end. -/
def dictInsert (l : List (String × JobRecord)) (k : String) (v : JobRecord) :
    List (String × JobRecord) :=
  match l with
  | [] => [(k, v)]
  | (k0, v0) :: t => if k0 = k then (k, v) :: t else (k0, v0) :: dictInsert t k v

/-- The module-level mutable state: the `jobs_status` dict and the
`active_jobs` counter. -/
structure ServerState where
  jobs_status : List (String × JobRecord)
  active_jobs : Int
deriving DecidableEq, Repr

/-- `fastapi.HTTPException` as raised by the handlers. -/
structure HTTPException where
  status_code : Nat
  detail : String
deriving DecidableEq, Repr

/-- The JSON body returned by a successful POST /render. -/
structure RenderResponse where
  job_id : String
  status : String
  message : String
deriving DecidableEq, Repr

/-- The POST /render handler.  `genId` is the value of
`str(uuid.uuid4())[:8]` drawn for this call and `now` the value of
`datetime.now().isoformat()`; both are inputs from the environment.
Returns the state after the handler together with either the 429
rejection or the success response.  On acceptance the pending record is
inserted, the background task is scheduled and the counter incremented. -/
def create_render_job (cfg : Config) (st : ServerState) (request : RenderRequest)
    (genId now : String) : ServerState × Except HTTPException RenderResponse :=
  if st.active_jobs ≥ cfg.MAX_CONCURRENT_JOBS then
    (st, Except.error ⟨429,
      "Maximum concurrent jobs (" ++ toString cfg.MAX_CONCURRENT_JOBS ++
        ") reached. Try again later."⟩)
  else
    let job_id := genId
    let record : JobRecord :=
      { job_id := job_id
        status := "pending"
        progress := 0
        message := "Job queued for processing"
        created_at := now
        completed_at := none
        output_file := none
        error := none
        video_url := request.video_url
        audio_url := request.audio_url
        quality := request.quality }
    ({ jobs_status := dictInsert st.jobs_status job_id record
       active_jobs := st.active_jobs + 1 },
     Except.ok ⟨job_id, "pending", "Job created successfully"⟩)

/-- The GET /status/{job_id} handler: the record, or a 404. -/
def get_job_status (st : ServerState) (job_id : String) :
    Except HTTPException JobRecord :=
  match st.jobs_status.lookup job_id with
  | some r => Except.ok r
  | none => Except.error ⟨404, "Job not found"⟩

/-- `"pat" in s` for Python strings: `s` contains `pat` as a substring. -/
def strContains (s pat : String) : Bool := (s.splitOn pat).length > 1

/-- The outcome of one `requests.get` download attempt, as seen by
`download_file_async`: whether it succeeded (HTTP success status, no
transport error or timeout, and the streaming write succeeded), the text of
the underlying exception otherwise, and the response's declared
content-type. -/
structure DownloadEnv where
  ok : Bool
  errMsg : String
  contentType : String
deriving DecidableEq, Repr

/-- `download_file_async`: fetch `url` to a temp file named
`{job_id}_{file_type}{extension}`; video always gets ".mp4", audio gets
".wav" when the content-type mentions wav or the URL ends in ".wav",
otherwise ".mp3".  Any underlying exception is re-raised wrapped as
"Failed to download {file_type}: ...". -/
def download_file_async (cfg : Config) (url : String) (job_id file_type : String)
    (env : DownloadEnv) : Except String FsPath :=
  if env.ok then
    let extension :=
      if file_type = "video" then ".mp4"
      else if file_type = "audio" then
        if strContains env.contentType "wav" || url.endsWith ".wav"
        then ".wav" else ".mp3"
      else ""
    Except.ok ⟨cfg.TEMP_DIR, job_id ++ "_" ++ file_type ++ extension⟩
  else
    Except.error ("Failed to download " ++ file_type ++ ": " ++ env.errMsg)

/-- The quality-settings dict of `render_video`. -/
def quality_settings : List (String × List String) :=
  [("high", ["-crf", "18", "-preset", "medium"]),
   ("medium", ["-crf", "23", "-preset", "fast"]),
   ("low", ["-crf", "28", "-preset", "ultrafast"])]

/-- `quality_settings.get(quality, quality_settings["medium"])`. -/
def qualityParams (quality : String) : List String :=
  (quality_settings.lookup quality).getD
    ((quality_settings.lookup "medium").getD [])

/-- The ffmpeg command line built by `render_video`. -/
def ffmpeg_cmd (cfg : Config) (video_path audio_path output_file : FsPath)
    (quality : String) : List String :=
  ["ffmpeg", "-y",
   "-i", video_path.str,
   "-i", audio_path.str,
   "-c:v", "libx264",
   "-c:a", "aac",
   "-threads", toString cfg.FFMPEG_THREADS]
  ++ qualityParams quality
  ++ ["-movflags", "+faststart", output_file.str]

/-- The observable outcome of running the ffmpeg subprocess: its exit code,
captured stderr, and whether the declared output file exists afterwards. -/
structure FfmpegEnv where
  returncode : Int
  stderr : String
  outputExists : Bool
deriving DecidableEq, Repr

/-- `render_video`: run ffmpeg on the two inputs producing
`OUTPUT_DIR/render_{job_id}.mp4`; raise "FFmpeg rendering failed: stderr"
on a non-zero exit, "Output file was not created" when the file is absent
after a zero exit, and return the output path otherwise. -/
def render_video (cfg : Config) (video_path audio_path : FsPath)
    (job_id quality : String) (env : FfmpegEnv) : Except String FsPath :=
  let output_file : FsPath := ⟨cfg.OUTPUT_DIR, "render_" ++ job_id ++ ".mp4"⟩
  let _cmd := ffmpeg_cmd cfg video_path audio_path output_file quality
  if env.returncode ≠ 0 then
    Except.error ("FFmpeg rendering failed: " ++ env.stderr)
  else if !env.outputExists then
    Except.error "Output file was not created"
  else
    Except.ok output_file

/-- The two download outcomes and the encoder outcome a single job body
observes from the outside world. -/
structure JobEnv where
  video : DownloadEnv
  audio : DownloadEnv
  ffmpeg : FfmpegEnv
deriving DecidableEq, Repr

/-- The `except` branch of `process_render_job`: record the failure into
the job record (status, message, error, completed_at). -/
def failureUpdate (r : JobRecord) (errMsg endTime : String) : JobRecord :=
  { r with
    status := "failed"
    message := "Rendering failed: " ++ errMsg
    error := some errMsg
    completed_at := some endTime }

/-- The completion update of `process_render_job`: mark completed,
progress 100, set completion timestamp and output file name. -/
def completionUpdate (r : JobRecord) (endTime outName : String) : JobRecord :=
  { r with
    status := "completed"
    progress := 100
    message := "Rendering completed successfully"
    completed_at := some endTime
    output_file := some outName }

/-- The body of `process_render_job` acting on the job's record `rec0`
(the pending record inserted at submission), returned as the list of
record snapshots after each mutation, in order.  `endTime` is the value
`datetime.now().isoformat()` takes when the terminal update runs. -/
def process_render_job (cfg : Config) (rec0 : JobRecord) (job_id : String)
    (request : RenderRequest) (env : JobEnv) (endTime : String) :
    List JobRecord :=
  let r1 := { rec0 with status := "processing" }
  let r2 := { r1 with message := "Starting download" }
  let r3 := { r2 with progress := 10 }
  match download_file_async cfg request.video_url job_id "video" env.video with
  | Except.error e => [r1, r2, r3, failureUpdate r3 e endTime]
  | Except.ok video_path =>
    let r4 := { r3 with progress := 30 }
    match download_file_async cfg request.audio_url job_id "audio" env.audio with
    | Except.error e => [r1, r2, r3, r4, failureUpdate r4 e endTime]
    | Except.ok audio_path =>
      let r5 := { r4 with progress := 50 }
      let r6 := { r5 with message := "Processing video" }
      match render_video cfg video_path audio_path job_id request.quality env.ffmpeg with
      | Except.error e => [r1, r2, r3, r4, r5, r6, failureUpdate r6 e endTime]
      | Except.ok output_path =>
        let r7 := { r6 with progress := 90 }
        [r1, r2, r3, r4, r5, r6, r7, completionUpdate r7 endTime output_path.name]

/-- The full sequence of values the job's record takes over its lifecycle:
the pending record at insertion followed by every mutation of the body. -/
def jobTrace (cfg : Config) (rec0 : JobRecord) (job_id : String)
    (request : RenderRequest) (env : JobEnv) (endTime : String) : List JobRecord :=
  rec0 :: process_render_job cfg rec0 job_id request env endTime

/-- The job's record when the body has finished. -/
def finalRecord (cfg : Config) (rec0 : JobRecord) (job_id : String)
    (request : RenderRequest) (env : JobEnv) (endTime : String) : JobRecord :=
  (process_render_job cfg rec0 job_id request env endTime).getLastD rec0

/-- Running one scheduled job body to completion against the server state:
the job's record is replaced by its final value, and the `finally` block
decrements `active_jobs` regardless of outcome. -/
def runJobBody (cfg : Config) (st : ServerState) (job_id : String)
    (request : RenderRequest) (env : JobEnv) (endTime : String) : ServerState :=
  { jobs_status :=
      match st.jobs_status.lookup job_id with
      | some r => dictInsert st.jobs_status job_id
          (finalRecord cfg r job_id request env endTime)
      | none => st.jobs_status
    active_jobs := st.active_jobs - 1 }

/-! ## Registry (dict) lemmas -/

theorem lookup_dictInsert_self (l : List (String × JobRecord)) (k : String)
    (v : JobRecord) : (dictInsert l k v).lookup k = some v := by
  induction l with
  | nil => simp [dictInsert, List.lookup]
  | cons hd t ih =>
    obtain ⟨k0, v0⟩ := hd
    by_cases h : k0 = k
    · simp [dictInsert, h, List.lookup]
    · simp only [dictInsert, if_neg h, List.lookup]
      have : (k == k0) = false := beq_eq_false_iff_ne.mpr (Ne.symm h)
      simp [this, ih]

theorem lookup_dictInsert_ne (l : List (String × JobRecord)) (k k0 : String)
    (v : JobRecord) (h : k ≠ k0) :
    (dictInsert l k0 v).lookup k = l.lookup k := by
  induction l with
  | nil => simp [dictInsert, List.lookup, beq_eq_false_iff_ne.mpr h]
  | cons hd t ih =>
    obtain ⟨k1, v1⟩ := hd
    by_cases h1 : k1 = k0
    · subst h1
      simp [dictInsert, List.lookup, beq_eq_false_iff_ne.mpr h]
    · simp only [dictInsert, if_neg h1, List.lookup]
      by_cases h2 : k = k1
      · simp [h2]
      · simp [beq_eq_false_iff_ne.mpr h2, ih]

/-! ## C1: capacity rejection -/

/-- C1: every submission arriving while `active_jobs` is at or above
`MAX_CONCURRENT_JOBS` is rejected with an HTTP 429 error, the server state
(registry and counter) being returned unchanged. -/
theorem C1_capacity_reject (cfg : Config) (st : ServerState)
    (request : RenderRequest) (genId now : String)
    (h : cfg.MAX_CONCURRENT_JOBS ≤ st.active_jobs) :
    (create_render_job cfg st request genId now).1 = st ∧
    ∃ e : HTTPException,
      (create_render_job cfg st request genId now).2 = Except.error e ∧
      e.status_code = 429 := by
  unfold create_render_job
  rw [if_pos h]
  exact ⟨rfl, _, rfl, rfl⟩

/-- Witness for C1 at a concrete saturated state. -/
theorem C1_capacity_reject_witness :
    (create_render_job ⟨3, 2, "/tmp/ffmpeg", "/app/output"⟩ ⟨[], 2⟩
        ⟨"http://v", "http://a", "high"⟩ "abcd1234" "t0").1 = ⟨[], 2⟩ ∧
    ∃ e : HTTPException,
      (create_render_job ⟨3, 2, "/tmp/ffmpeg", "/app/output"⟩ ⟨[], 2⟩
          ⟨"http://v", "http://a", "high"⟩ "abcd1234" "t0").2 = Except.error e ∧
      e.status_code = 429 :=
  C1_capacity_reject ⟨3, 2, "/tmp/ffmpeg", "/app/output"⟩ ⟨[], 2⟩
    ⟨"http://v", "http://a", "high"⟩ "abcd1234" "t0" (by decide)

/-! ## C2: acceptance below the cap -/

/-- C2: every submission arriving while `active_jobs` is strictly below
`MAX_CONCURRENT_JOBS` succeeds: it returns the job identifier, the registry
immediately holds a `pending` record under that identifier echoing the
request's video URL, audio URL and quality, and `active_jobs` is
incremented by one. -/
theorem C2_accept_below_cap (cfg : Config) (st : ServerState)
    (request : RenderRequest) (genId now : String)
    (h : st.active_jobs < cfg.MAX_CONCURRENT_JOBS) :
    (create_render_job cfg st request genId now).2 =
      Except.ok ⟨genId, "pending", "Job created successfully"⟩ ∧
    (create_render_job cfg st request genId now).1.active_jobs =
      st.active_jobs + 1 ∧
    ∃ rec : JobRecord,
      (create_render_job cfg st request genId now).1.jobs_status.lookup genId =
        some rec ∧
      rec.status = "pending" ∧
      rec.video_url = request.video_url ∧
      rec.audio_url = request.audio_url ∧
      rec.quality = request.quality := by
  unfold create_render_job
  rw [if_neg (not_le.mpr h)]
  refine ⟨rfl, rfl, _, lookup_dictInsert_self _ _ _, rfl, rfl, rfl, rfl⟩

/-- Witness for C2 at a concrete under-capacity state. -/
theorem C2_accept_below_cap_witness :
    (create_render_job ⟨3, 2, "/tmp/ffmpeg", "/app/output"⟩ ⟨[], 0⟩
        ⟨"http://v", "http://a", "low"⟩ "abcd1234" "t0").2 =
      Except.ok ⟨"abcd1234", "pending", "Job created successfully"⟩ ∧
    (create_render_job ⟨3, 2, "/tmp/ffmpeg", "/app/output"⟩ ⟨[], 0⟩
        ⟨"http://v", "http://a", "low"⟩ "abcd1234" "t0").1.active_jobs = 0 + 1 ∧
    ∃ rec : JobRecord,
      (create_render_job ⟨3, 2, "/tmp/ffmpeg", "/app/output"⟩ ⟨[], 0⟩
          ⟨"http://v", "http://a", "low"⟩ "abcd1234" "t0").1.jobs_status.lookup
        "abcd1234" = some rec ∧
      rec.status = "pending" ∧
      rec.video_url = "http://v" ∧
      rec.audio_url = "http://a" ∧
      rec.quality = "low" :=
  C2_accept_below_cap ⟨3, 2, "/tmp/ffmpeg", "/app/output"⟩ ⟨[], 0⟩
    ⟨"http://v", "http://a", "low"⟩ "abcd1234" "t0" (by decide)

/-! ## C3: default quality tier

The claim says omitted `quality` defaults to `medium`; the source declares
`quality: str = "high"`, so the default is `high`. -/

/-- C3 counterexample: a request with the quality field omitted is treated
as quality tier "high", not "medium". -/
theorem C3_default_not_medium :
    (RenderRequest.fromFields "http://v" "http://a" none).quality ≠ "medium" := by
  decide

/-- C3 amended: for every render request in which the quality field is
omitted, the request is treated as quality tier high (the pydantic default
is "high"). -/
theorem C3_default_is_high (video_url audio_url : String) :
    (RenderRequest.fromFields video_url audio_url none).quality = "high" := rfl

/-! ## C7: guaranteed counter release -/

/-- C7: whatever the environment does to the job body — every step
succeeding or any step failing — running the body decrements `active_jobs`
by exactly one (the `finally` block), releasing the capacity taken at
admission. -/
theorem C7_counter_released (cfg : Config) (st : ServerState) (job_id : String)
    (request : RenderRequest) (env : JobEnv) (endTime : String) :
    (runJobBody cfg st job_id request env endTime).active_jobs =
      st.active_jobs - 1 := rfl

/-! ## C9: quality-to-parameter mapping -/

/-- C9: the encoder invocation maps the three tiers high, medium, low to
pairwise distinct crf/preset parameter pairs, and any quality string
outside those three produces the medium tier's parameters, the full
command line included. -/
theorem C9_quality_mapping (cfg : Config)
    (video_path audio_path output_file : FsPath) (q : String)
    (hq : q ≠ "high" ∧ q ≠ "medium" ∧ q ≠ "low") :
    qualityParams "high" = ["-crf", "18", "-preset", "medium"] ∧
    qualityParams "medium" = ["-crf", "23", "-preset", "fast"] ∧
    qualityParams "low" = ["-crf", "28", "-preset", "ultrafast"] ∧
    qualityParams "high" ≠ qualityParams "medium" ∧
    qualityParams "high" ≠ qualityParams "low" ∧
    qualityParams "medium" ≠ qualityParams "low" ∧
    qualityParams q = qualityParams "medium" ∧
    ffmpeg_cmd cfg video_path audio_path output_file q =
      ffmpeg_cmd cfg video_path audio_path output_file "medium" := by
  obtain ⟨h1, h2, h3⟩ := hq
  have hlook : qualityParams q = qualityParams "medium" := by
    simp [qualityParams, quality_settings, List.lookup,
      beq_eq_false_iff_ne.mpr h1, beq_eq_false_iff_ne.mpr h2,
      beq_eq_false_iff_ne.mpr h3]
  refine ⟨by decide, by decide, by decide, by decide, by decide, by decide,
    hlook, ?_⟩
  simp [ffmpeg_cmd, hlook]

/-- Witness for C9 at the unknown quality string "ultra". -/
theorem C9_quality_mapping_witness :
    qualityParams "high" = ["-crf", "18", "-preset", "medium"] ∧
    qualityParams "medium" = ["-crf", "23", "-preset", "fast"] ∧
    qualityParams "low" = ["-crf", "28", "-preset", "ultrafast"] ∧
    qualityParams "high" ≠ qualityParams "medium" ∧
    qualityParams "high" ≠ qualityParams "low" ∧
    qualityParams "medium" ≠ qualityParams "low" ∧
    qualityParams "ultra" = qualityParams "medium" ∧
    ffmpeg_cmd ⟨3, 2, "/tmp/ffmpeg", "/app/output"⟩ ⟨"/tmp/ffmpeg", "j_video.mp4"⟩
        ⟨"/tmp/ffmpeg", "j_audio.mp3"⟩ ⟨"/app/output", "render_j.mp4"⟩ "ultra" =
      ffmpeg_cmd ⟨3, 2, "/tmp/ffmpeg", "/app/output"⟩ ⟨"/tmp/ffmpeg", "j_video.mp4"⟩
        ⟨"/tmp/ffmpeg", "j_audio.mp3"⟩ ⟨"/app/output", "render_j.mp4"⟩ "medium" :=
  C9_quality_mapping ⟨3, 2, "/tmp/ffmpeg", "/app/output"⟩
    ⟨"/tmp/ffmpeg", "j_video.mp4"⟩ ⟨"/tmp/ffmpeg", "j_audio.mp3"⟩
    ⟨"/app/output", "render_j.mp4"⟩ "ultra" ⟨by decide, by decide, by decide⟩

/-! ## Snapshots of the job body and the branch-shape lemma -/

/-- Snapshot after `status = "processing"`. -/
def pr1 (r : JobRecord) : JobRecord := { r with status := "processing" }

/-- Snapshot after `message = "Starting download"`. -/
def pr2 (r : JobRecord) : JobRecord := { pr1 r with message := "Starting download" }

/-- Snapshot after `progress = 10`. -/
def pr3 (r : JobRecord) : JobRecord := { pr2 r with progress := 10 }

/-- Snapshot after the video download, `progress = 30`. -/
def pr4 (r : JobRecord) : JobRecord := { pr3 r with progress := 30 }

/-- Snapshot after the audio download, `progress = 50`. -/
def pr5 (r : JobRecord) : JobRecord := { pr4 r with progress := 50 }

/-- Snapshot after `message = "Processing video"`. -/
def pr6 (r : JobRecord) : JobRecord := { pr5 r with message := "Processing video" }

/-- Snapshot after the encode, `progress = 90`. -/
def pr7 (r : JobRecord) : JobRecord := { pr6 r with progress := 90 }

/-- A nonempty string concatenated with anything is nonempty. -/
theorem append_ne_empty_left (a b : String) (ha : 0 < a.length) :
    a ++ b ≠ "" := by
  intro h
  have hlen := congrArg String.length h
  rw [String.length_append] at hlen
  have h0 : ("" : String).length = 0 := rfl
  rw [h0] at hlen
  omega

/-- Every run of the job body yields one of four snapshot sequences:
failure at the video download, at the audio download, at the encode
(each with a nonempty error message), or full success ending in the
completion update with output name `render_{job_id}.mp4`. -/
theorem process_render_job_cases (cfg : Config) (rec0 : JobRecord)
    (job_id : String) (request : RenderRequest) (env : JobEnv)
    (endTime : String) :
    (∃ e, e ≠ "" ∧ process_render_job cfg rec0 job_id request env endTime =
      [pr1 rec0, pr2 rec0, pr3 rec0, failureUpdate (pr3 rec0) e endTime]) ∨
    (∃ e, e ≠ "" ∧ process_render_job cfg rec0 job_id request env endTime =
      [pr1 rec0, pr2 rec0, pr3 rec0, pr4 rec0,
       failureUpdate (pr4 rec0) e endTime]) ∨
    (∃ e, e ≠ "" ∧ process_render_job cfg rec0 job_id request env endTime =
      [pr1 rec0, pr2 rec0, pr3 rec0, pr4 rec0, pr5 rec0, pr6 rec0,
       failureUpdate (pr6 rec0) e endTime]) ∨
    process_render_job cfg rec0 job_id request env endTime =
      [pr1 rec0, pr2 rec0, pr3 rec0, pr4 rec0, pr5 rec0, pr6 rec0, pr7 rec0,
       completionUpdate (pr7 rec0) endTime ("render_" ++ job_id ++ ".mp4")] := by
  cases hv : env.video.ok with
  | false =>
    refine Or.inl ⟨"Failed to download video: " ++ env.video.errMsg, ?_, ?_⟩
    · exact append_ne_empty_left _ _ (by decide)
    · simp [process_render_job, download_file_async, hv, pr1, pr2, pr3]
  | true =>
    cases ha : env.audio.ok with
    | false =>
      refine Or.inr (Or.inl ⟨"Failed to download audio: " ++ env.audio.errMsg, ?_, ?_⟩)
      · exact append_ne_empty_left _ _ (by decide)
      · simp [process_render_job, download_file_async, hv, ha,
          pr1, pr2, pr3, pr4]
    | true =>
      by_cases hrc : env.ffmpeg.returncode = 0
      · cases hout : env.ffmpeg.outputExists with
        | false =>
          refine Or.inr (Or.inr (Or.inl ⟨"Output file was not created", ?_, ?_⟩))
          · decide
          · simp [process_render_job, download_file_async, render_video,
              hv, ha, hrc, hout, pr1, pr2, pr3, pr4, pr5, pr6]
        | true =>
          refine Or.inr (Or.inr (Or.inr ?_))
          simp [process_render_job, download_file_async, render_video,
            hv, ha, hrc, hout, pr1, pr2, pr3, pr4, pr5, pr6, pr7]
      · refine Or.inr (Or.inr (Or.inl
          ⟨"FFmpeg rendering failed: " ++ env.ffmpeg.stderr, ?_, ?_⟩))
        · exact append_ne_empty_left _ _ (by decide)
        · simp [process_render_job, download_file_async, render_video,
            hv, ha, hrc, pr1, pr2, pr3, pr4, pr5, pr6]

/-! ## C4: progress monotonicity -/

/-- The progress values of consecutive snapshots never decrease. -/
def progressNondecreasing (l : List JobRecord) : Prop :=
  List.Chain' (fun a b => a.progress ≤ b.progress) l

/-- C4: over any job's lifecycle the progress values written to its record
form a non-decreasing sequence; a job ending `completed` ends at exactly
100, and a job ending `failed` ends strictly below 100. -/
theorem C4_progress_lifecycle (cfg : Config) (rec0 : JobRecord)
    (job_id : String) (request : RenderRequest) (env : JobEnv)
    (endTime : String) (h0 : rec0.progress = 0) :
    progressNondecreasing (jobTrace cfg rec0 job_id request env endTime) ∧
    ((finalRecord cfg rec0 job_id request env endTime).status = "completed" →
      (finalRecord cfg rec0 job_id request env endTime).progress = 100) ∧
    ((finalRecord cfg rec0 job_id request env endTime).status = "failed" →
      (finalRecord cfg rec0 job_id request env endTime).progress < 100) := by
  rcases process_render_job_cases cfg rec0 job_id request env endTime with
    ⟨e, he, hp⟩ | ⟨e, he, hp⟩ | ⟨e, he, hp⟩ | hp <;>
  · unfold jobTrace finalRecord
    rw [hp]
    refine ⟨?_, ?_, ?_⟩ <;>
      simp [progressNondecreasing, List.chain'_cons, List.getLastD,
        pr1, pr2, pr3, pr4, pr5, pr6, pr7, failureUpdate, completionUpdate, h0]

/-- Witness for C4: a pending record with progress 0 and an environment
whose audio download fails. -/
theorem C4_progress_lifecycle_witness :
    progressNondecreasing (jobTrace ⟨3, 2, "/tmp/ffmpeg", "/app/output"⟩
      ⟨"j1", "pending", 0, "Job queued for processing", "t0", none, none, none,
        "http://v", "http://a", "high"⟩ "j1" ⟨"http://v", "http://a", "high"⟩
      ⟨⟨true, "", "video/mp4"⟩, ⟨false, "HTTP 404", ""⟩, ⟨0, "", true⟩⟩ "t1") ∧
    ((finalRecord ⟨3, 2, "/tmp/ffmpeg", "/app/output"⟩
      ⟨"j1", "pending", 0, "Job queued for processing", "t0", none, none, none,
        "http://v", "http://a", "high"⟩ "j1" ⟨"http://v", "http://a", "high"⟩
      ⟨⟨true, "", "video/mp4"⟩, ⟨false, "HTTP 404", ""⟩, ⟨0, "", true⟩⟩
      "t1").status = "completed" →
      (finalRecord ⟨3, 2, "/tmp/ffmpeg", "/app/output"⟩
      ⟨"j1", "pending", 0, "Job queued for processing", "t0", none, none, none,
        "http://v", "http://a", "high"⟩ "j1" ⟨"http://v", "http://a", "high"⟩
      ⟨⟨true, "", "video/mp4"⟩, ⟨false, "HTTP 404", ""⟩, ⟨0, "", true⟩⟩
      "t1").progress = 100) ∧
    ((finalRecord ⟨3, 2, "/tmp/ffmpeg", "/app/output"⟩
      ⟨"j1", "pending", 0, "Job queued for processing", "t0", none, none, none,
        "http://v", "http://a", "high"⟩ "j1" ⟨"http://v", "http://a", "high"⟩
      ⟨⟨true, "", "video/mp4"⟩, ⟨false, "HTTP 404", ""⟩, ⟨0, "", true⟩⟩
      "t1").status = "failed" →
      (finalRecord ⟨3, 2, "/tmp/ffmpeg", "/app/output"⟩
      ⟨"j1", "pending", 0, "Job queued for processing", "t0", none, none, none,
        "http://v", "http://a", "high"⟩ "j1" ⟨"http://v", "http://a", "high"⟩
      ⟨⟨true, "", "video/mp4"⟩, ⟨false, "HTTP 404", ""⟩, ⟨0, "", true⟩⟩
      "t1").progress < 100) :=
  C4_progress_lifecycle ⟨3, 2, "/tmp/ffmpeg", "/app/output"⟩
    ⟨"j1", "pending", 0, "Job queued for processing", "t0", none, none, none,
      "http://v", "http://a", "high"⟩ "j1" ⟨"http://v", "http://a", "high"⟩
    ⟨⟨true, "", "video/mp4"⟩, ⟨false, "HTTP 404", ""⟩, ⟨0, "", true⟩⟩ "t1" rfl

/-! ## C5: status state machine -/

/-- The transitions the spec's state machine allows between consecutive
snapshots: stay put, pending → processing, or processing → terminal. -/
def statusStepOK (a b : String) : Prop :=
  a = b ∨ (a = "pending" ∧ b = "processing") ∨
    (a = "processing" ∧ (b = "completed" ∨ b = "failed"))

/-- C5: over any job's lifecycle the status only takes the four values
pending, processing, completed, failed; consecutive snapshots move only
along pending → processing → {completed | failed} (never backwards, and
never out of a terminal state); the trace starts at the pending record and
ends in a terminal state. -/
theorem C5_status_machine (cfg : Config) (rec0 : JobRecord) (job_id : String)
    (request : RenderRequest) (env : JobEnv) (endTime : String)
    (h0 : rec0.status = "pending") :
    (∀ r ∈ jobTrace cfg rec0 job_id request env endTime,
      r.status = "pending" ∨ r.status = "processing" ∨
      r.status = "completed" ∨ r.status = "failed") ∧
    List.Chain' statusStepOK
      ((jobTrace cfg rec0 job_id request env endTime).map JobRecord.status) ∧
    (jobTrace cfg rec0 job_id request env endTime).head? = some rec0 ∧
    ((finalRecord cfg rec0 job_id request env endTime).status = "completed" ∨
     (finalRecord cfg rec0 job_id request env endTime).status = "failed") := by
  rcases process_render_job_cases cfg rec0 job_id request env endTime with
    ⟨e, he, hp⟩ | ⟨e, he, hp⟩ | ⟨e, he, hp⟩ | hp <;>
  · unfold jobTrace finalRecord
    rw [hp]
    refine ⟨?_, ?_, rfl, ?_⟩ <;>
      simp [statusStepOK, List.chain'_cons, List.getLastD,
        pr1, pr2, pr3, pr4, pr5, pr6, pr7, failureUpdate, completionUpdate, h0]

/-- Witness for C5: a pending record run against an environment in which
every step succeeds. -/
theorem C5_status_machine_witness :
    (∀ r ∈ jobTrace ⟨3, 2, "/tmp/ffmpeg", "/app/output"⟩
      ⟨"j1", "pending", 0, "Job queued for processing", "t0", none, none, none,
        "http://v", "http://a", "high"⟩ "j1" ⟨"http://v", "http://a", "high"⟩
      ⟨⟨true, "", "video/mp4"⟩, ⟨true, "", "audio/mpeg"⟩, ⟨0, "", true⟩⟩ "t1",
      r.status = "pending" ∨ r.status = "processing" ∨
      r.status = "completed" ∨ r.status = "failed") ∧
    List.Chain' statusStepOK
      ((jobTrace ⟨3, 2, "/tmp/ffmpeg", "/app/output"⟩
      ⟨"j1", "pending", 0, "Job queued for processing", "t0", none, none, none,
        "http://v", "http://a", "high"⟩ "j1" ⟨"http://v", "http://a", "high"⟩
      ⟨⟨true, "", "video/mp4"⟩, ⟨true, "", "audio/mpeg"⟩, ⟨0, "", true⟩⟩
      "t1").map JobRecord.status) ∧
    (jobTrace ⟨3, 2, "/tmp/ffmpeg", "/app/output"⟩
      ⟨"j1", "pending", 0, "Job queued for processing", "t0", none, none, none,
        "http://v", "http://a", "high"⟩ "j1" ⟨"http://v", "http://a", "high"⟩
      ⟨⟨true, "", "video/mp4"⟩, ⟨true, "", "audio/mpeg"⟩, ⟨0, "", true⟩⟩
      "t1").head? = some
        ⟨"j1", "pending", 0, "Job queued for processing", "t0", none, none, none,
          "http://v", "http://a", "high"⟩ ∧
    ((finalRecord ⟨3, 2, "/tmp/ffmpeg", "/app/output"⟩
      ⟨"j1", "pending", 0, "Job queued for processing", "t0", none, none, none,
        "http://v", "http://a", "high"⟩ "j1" ⟨"http://v", "http://a", "high"⟩
      ⟨⟨true, "", "video/mp4"⟩, ⟨true, "", "audio/mpeg"⟩, ⟨0, "", true⟩⟩
      "t1").status = "completed" ∨
     (finalRecord ⟨3, 2, "/tmp/ffmpeg", "/app/output"⟩
      ⟨"j1", "pending", 0, "Job queued for processing", "t0", none, none, none,
        "http://v", "http://a", "high"⟩ "j1" ⟨"http://v", "http://a", "high"⟩
      ⟨⟨true, "", "video/mp4"⟩, ⟨true, "", "audio/mpeg"⟩, ⟨0, "", true⟩⟩
      "t1").status = "failed") :=
  C5_status_machine ⟨3, 2, "/tmp/ffmpeg", "/app/output"⟩
    ⟨"j1", "pending", 0, "Job queued for processing", "t0", none, none, none,
      "http://v", "http://a", "high"⟩ "j1" ⟨"http://v", "http://a", "high"⟩
    ⟨⟨true, "", "video/mp4"⟩, ⟨true, "", "audio/mpeg"⟩, ⟨0, "", true⟩⟩ "t1" rfl

/-! ## C6: completion timestamp and outcome fields -/

/-- The claimed consistency of one record snapshot: the completion
timestamp together with exactly one of output file / error is present
precisely in the terminal statuses; completed has a nonempty output file
and no error, failed a nonempty error and no output file, and the two are
never both present. -/
def outcomeConsistent (r : JobRecord) : Prop :=
  ((r.completed_at.isSome ∧
     ((r.output_file.isSome ∧ r.error = none) ∨
      (r.error.isSome ∧ r.output_file = none))) ↔
    (r.status = "completed" ∨ r.status = "failed")) ∧
  (r.status = "completed" →
    ∃ s, r.output_file = some s ∧ s ≠ "" ∧ r.error = none) ∧
  (r.status = "failed" →
    ∃ s, r.error = some s ∧ s ≠ "" ∧ r.output_file = none) ∧
  ¬ (r.output_file.isSome ∧ r.error.isSome)

theorem outcomeConsistent_nonterminal (r : JobRecord)
    (hs : r.status = "pending" ∨ r.status = "processing")
    (h1 : r.completed_at = none) (h2 : r.output_file = none)
    (h3 : r.error = none) : outcomeConsistent r := by
  rcases hs with h | h <;> simp [outcomeConsistent, h, h1, h2, h3]

theorem outcomeConsistent_failure (r : JobRecord) (e t : String)
    (he : e ≠ "") (h2 : r.output_file = none) :
    outcomeConsistent (failureUpdate r e t) := by
  simp [outcomeConsistent, failureUpdate, h2, he]

theorem outcomeConsistent_completion (r : JobRecord) (t n : String)
    (hn : n ≠ "") (h3 : r.error = none) :
    outcomeConsistent (completionUpdate r t n) := by
  simp [outcomeConsistent, completionUpdate, h3, hn]

/-- The deterministic output file name is never empty. -/
theorem render_name_ne_empty (job_id : String) :
    "render_" ++ job_id ++ ".mp4" ≠ "" := by
  apply append_ne_empty_left
  rw [String.length_append]
  have h7 : ("render_" : String).length = 7 := rfl
  omega

/-- C6: at every point of a job's lifecycle, the completion timestamp and
exactly one of the output file / error detail are present if and only if
the status is terminal; a completed record carries a nonempty output file
and no error, a failed record a nonempty error and no output file, and no
record ever carries both. -/
theorem C6_outcome_fields (cfg : Config) (rec0 : JobRecord) (job_id : String)
    (request : RenderRequest) (env : JobEnv) (endTime : String)
    (h0 : rec0.status = "pending") (h1 : rec0.completed_at = none)
    (h2 : rec0.output_file = none) (h3 : rec0.error = none) :
    ∀ r ∈ jobTrace cfg rec0 job_id request env endTime,
      outcomeConsistent r := by
  rcases process_render_job_cases cfg rec0 job_id request env endTime with
    ⟨e, he, hp⟩ | ⟨e, he, hp⟩ | ⟨e, he, hp⟩ | hp
  · intro r hr
    unfold jobTrace at hr
    rw [hp] at hr
    simp only [List.mem_cons, List.not_mem_nil, or_false] at hr
    rcases hr with h | h | h | h | h <;> subst h <;>
      first
      | exact outcomeConsistent_failure _ _ _ he
          (by simp [pr1, pr2, pr3, pr4, pr5, pr6, h2])
      | apply outcomeConsistent_nonterminal <;>
          simp [pr1, pr2, pr3, pr4, pr5, pr6, pr7, h0, h1, h2, h3]
  · intro r hr
    unfold jobTrace at hr
    rw [hp] at hr
    simp only [List.mem_cons, List.not_mem_nil, or_false] at hr
    rcases hr with h | h | h | h | h | h <;> subst h <;>
      first
      | exact outcomeConsistent_failure _ _ _ he
          (by simp [pr1, pr2, pr3, pr4, pr5, pr6, h2])
      | apply outcomeConsistent_nonterminal <;>
          simp [pr1, pr2, pr3, pr4, pr5, pr6, pr7, h0, h1, h2, h3]
  · intro r hr
    unfold jobTrace at hr
    rw [hp] at hr
    simp only [List.mem_cons, List.not_mem_nil, or_false] at hr
    rcases hr with h | h | h | h | h | h | h | h <;> subst h <;>
      first
      | exact outcomeConsistent_failure _ _ _ he
          (by simp [pr1, pr2, pr3, pr4, pr5, pr6, h2])
      | apply outcomeConsistent_nonterminal <;>
          simp [pr1, pr2, pr3, pr4, pr5, pr6, pr7, h0, h1, h2, h3]
  · intro r hr
    unfold jobTrace at hr
    rw [hp] at hr
    simp only [List.mem_cons, List.not_mem_nil, or_false] at hr
    rcases hr with h | h | h | h | h | h | h | h | h <;> subst h <;>
      first
      | exact outcomeConsistent_completion _ _ _ (render_name_ne_empty job_id)
          (by simp [pr1, pr2, pr3, pr4, pr5, pr6, pr7, h3])
      | apply outcomeConsistent_nonterminal <;>
          simp [pr1, pr2, pr3, pr4, pr5, pr6, pr7, h0, h1, h2, h3]

/-- Witness for C6: the final record of a run whose encoder exits non-zero
is outcome-consistent. -/
theorem C6_outcome_fields_witness :
    outcomeConsistent (finalRecord ⟨3, 2, "/tmp/ffmpeg", "/app/output"⟩
      ⟨"j1", "pending", 0, "Job queued for processing", "t0", none, none, none,
        "http://v", "http://a", "low"⟩ "j1" ⟨"http://v", "http://a", "low"⟩
      ⟨⟨true, "", "video/mp4"⟩, ⟨true, "", "audio/mpeg"⟩,
        ⟨1, "codec error", false⟩⟩ "t1") :=
  C6_outcome_fields ⟨3, 2, "/tmp/ffmpeg", "/app/output"⟩
    ⟨"j1", "pending", 0, "Job queued for processing", "t0", none, none, none,
      "http://v", "http://a", "low"⟩ "j1" ⟨"http://v", "http://a", "low"⟩
    ⟨⟨true, "", "video/mp4"⟩, ⟨true, "", "audio/mpeg"⟩,
      ⟨1, "codec error", false⟩⟩ "t1" rfl rfl rfl rfl _ (by decide)

/-! ## C10: frame of the failure-recording update -/

/-- C10: when a job body fails, the final record is the failure update of
one of the in-trace snapshots: only status, message, error and the
completion timestamp change, while the progress reached before the
failure, the creation timestamp and the echoed request fields keep the
values they had — in particular they still agree with the pending record
inserted at submission. -/
theorem C10_failure_update_frame (cfg : Config) (rec0 : JobRecord)
    (job_id : String) (request : RenderRequest) (env : JobEnv)
    (endTime : String)
    (hfail : (finalRecord cfg rec0 job_id request env endTime).status =
      "failed") :
    (finalRecord cfg rec0 job_id request env endTime).created_at =
      rec0.created_at ∧
    (finalRecord cfg rec0 job_id request env endTime).video_url =
      rec0.video_url ∧
    (finalRecord cfg rec0 job_id request env endTime).audio_url =
      rec0.audio_url ∧
    (finalRecord cfg rec0 job_id request env endTime).quality =
      rec0.quality ∧
    ∃ pre errMsg,
      pre ∈ jobTrace cfg rec0 job_id request env endTime ∧
      finalRecord cfg rec0 job_id request env endTime =
        failureUpdate pre errMsg endTime ∧
      (failureUpdate pre errMsg endTime).progress = pre.progress ∧
      (failureUpdate pre errMsg endTime).created_at = pre.created_at ∧
      (failureUpdate pre errMsg endTime).video_url = pre.video_url ∧
      (failureUpdate pre errMsg endTime).audio_url = pre.audio_url ∧
      (failureUpdate pre errMsg endTime).quality = pre.quality ∧
      (failureUpdate pre errMsg endTime).job_id = pre.job_id := by
  rcases process_render_job_cases cfg rec0 job_id request env endTime with
    ⟨e, he, hp⟩ | ⟨e, he, hp⟩ | ⟨e, he, hp⟩ | hp
  · unfold finalRecord
    rw [hp]
    refine ⟨?_, ?_, ?_, ?_, pr3 rec0, e, ?_, ?_, ?_, ?_, ?_, ?_, ?_, ?_⟩ <;>
      simp [jobTrace, hp, failureUpdate, pr1, pr2, pr3, List.getLastD]
  · unfold finalRecord
    rw [hp]
    refine ⟨?_, ?_, ?_, ?_, pr4 rec0, e, ?_, ?_, ?_, ?_, ?_, ?_, ?_, ?_⟩ <;>
      simp [jobTrace, hp, failureUpdate, pr1, pr2, pr3, pr4, List.getLastD]
  · unfold finalRecord
    rw [hp]
    refine ⟨?_, ?_, ?_, ?_, pr6 rec0, e, ?_, ?_, ?_, ?_, ?_, ?_, ?_, ?_⟩ <;>
      simp [jobTrace, hp, failureUpdate, pr1, pr2, pr3, pr4, pr5, pr6,
        List.getLastD]
  · exfalso
    unfold finalRecord at hfail
    rw [hp] at hfail
    simp [completionUpdate, List.getLastD] at hfail

/-- Witness for C10: an environment whose video download fails. -/
theorem C10_failure_update_frame_witness :
    (finalRecord ⟨3, 2, "/tmp/ffmpeg", "/app/output"⟩
      ⟨"j1", "pending", 0, "Job queued for processing", "t0", none, none, none,
        "http://v", "http://a", "high"⟩ "j1" ⟨"http://v", "http://a", "high"⟩
      ⟨⟨false, "connection refused", ""⟩, ⟨true, "", ""⟩, ⟨0, "", true⟩⟩
      "t1").created_at = "t0" ∧
    (finalRecord ⟨3, 2, "/tmp/ffmpeg", "/app/output"⟩
      ⟨"j1", "pending", 0, "Job queued for processing", "t0", none, none, none,
        "http://v", "http://a", "high"⟩ "j1" ⟨"http://v", "http://a", "high"⟩
      ⟨⟨false, "connection refused", ""⟩, ⟨true, "", ""⟩, ⟨0, "", true⟩⟩
      "t1").video_url = "http://v" ∧
    (finalRecord ⟨3, 2, "/tmp/ffmpeg", "/app/output"⟩
      ⟨"j1", "pending", 0, "Job queued for processing", "t0", none, none, none,
        "http://v", "http://a", "high"⟩ "j1" ⟨"http://v", "http://a", "high"⟩
      ⟨⟨false, "connection refused", ""⟩, ⟨true, "", ""⟩, ⟨0, "", true⟩⟩
      "t1").audio_url = "http://a" ∧
    (finalRecord ⟨3, 2, "/tmp/ffmpeg", "/app/output"⟩
      ⟨"j1", "pending", 0, "Job queued for processing", "t0", none, none, none,
        "http://v", "http://a", "high"⟩ "j1" ⟨"http://v", "http://a", "high"⟩
      ⟨⟨false, "connection refused", ""⟩, ⟨true, "", ""⟩, ⟨0, "", true⟩⟩
      "t1").quality = "high" ∧
    ∃ pre errMsg,
      pre ∈ jobTrace ⟨3, 2, "/tmp/ffmpeg", "/app/output"⟩
        ⟨"j1", "pending", 0, "Job queued for processing", "t0", none, none, none,
          "http://v", "http://a", "high"⟩ "j1" ⟨"http://v", "http://a", "high"⟩
        ⟨⟨false, "connection refused", ""⟩, ⟨true, "", ""⟩, ⟨0, "", true⟩⟩ "t1" ∧
      finalRecord ⟨3, 2, "/tmp/ffmpeg", "/app/output"⟩
        ⟨"j1", "pending", 0, "Job queued for processing", "t0", none, none, none,
          "http://v", "http://a", "high"⟩ "j1" ⟨"http://v", "http://a", "high"⟩
        ⟨⟨false, "connection refused", ""⟩, ⟨true, "", ""⟩, ⟨0, "", true⟩⟩ "t1" =
        failureUpdate pre errMsg "t1" ∧
      (failureUpdate pre errMsg "t1").progress = pre.progress ∧
      (failureUpdate pre errMsg "t1").created_at = pre.created_at ∧
      (failureUpdate pre errMsg "t1").video_url = pre.video_url ∧
      (failureUpdate pre errMsg "t1").audio_url = pre.audio_url ∧
      (failureUpdate pre errMsg "t1").quality = pre.quality ∧
      (failureUpdate pre errMsg "t1").job_id = pre.job_id := by
  have h := C10_failure_update_frame ⟨3, 2, "/tmp/ffmpeg", "/app/output"⟩
    ⟨"j1", "pending", 0, "Job queued for processing", "t0", none, none, none,
      "http://v", "http://a", "high"⟩ "j1" ⟨"http://v", "http://a", "high"⟩
    ⟨⟨false, "connection refused", ""⟩, ⟨true, "", ""⟩, ⟨0, "", true⟩⟩ "t1"
    (by decide)
  exact h

/-! ## C8: identifier uniqueness

`job_id = str(uuid.uuid4())[:8]` takes only the first eight characters of a
random UUID and performs no collision check, and `jobs_status[job_id] = ...`
silently overwrites an existing key; the generated token stream is an input
of the embedding, and for a stream that repeats a token the claim fails. -/

/-- Shape of an accepted submission, shared by proofs about
`create_render_job`. -/
theorem create_render_job_accepts (cfg : Config) (st : ServerState)
    (request : RenderRequest) (genId now : String)
    (h : st.active_jobs < cfg.MAX_CONCURRENT_JOBS) :
    create_render_job cfg st request genId now =
      ({ jobs_status := dictInsert st.jobs_status genId
           { job_id := genId, status := "pending", progress := 0,
             message := "Job queued for processing", created_at := now,
             completed_at := none, output_file := none, error := none,
             video_url := request.video_url, audio_url := request.audio_url,
             quality := request.quality },
         active_jobs := st.active_jobs + 1 },
       Except.ok ⟨genId, "pending", "Job created successfully"⟩) := by
  unfold create_render_job
  rw [if_neg (not_le.mpr h)]

/-- C8 counterexample: two distinct accepted submissions for which the
drawn truncated-UUID tokens coincide receive the same job identifier, and
the second insertion overwrites the first registry entry (the registry
still has a single record, now echoing the second request). -/
theorem C8_id_collision_overwrites :
    (create_render_job ⟨3, 2, "/tmp/ffmpeg", "/app/output"⟩ ⟨[], 0⟩
        ⟨"http://v1", "http://a1", "high"⟩ "abcd1234" "t1").2 =
      Except.ok ⟨"abcd1234", "pending", "Job created successfully"⟩ ∧
    (create_render_job ⟨3, 2, "/tmp/ffmpeg", "/app/output"⟩
        (create_render_job ⟨3, 2, "/tmp/ffmpeg", "/app/output"⟩ ⟨[], 0⟩
          ⟨"http://v1", "http://a1", "high"⟩ "abcd1234" "t1").1
        ⟨"http://v2", "http://a2", "low"⟩ "abcd1234" "t2").2 =
      Except.ok ⟨"abcd1234", "pending", "Job created successfully"⟩ ∧
    (create_render_job ⟨3, 2, "/tmp/ffmpeg", "/app/output"⟩
        (create_render_job ⟨3, 2, "/tmp/ffmpeg", "/app/output"⟩ ⟨[], 0⟩
          ⟨"http://v1", "http://a1", "high"⟩ "abcd1234" "t1").1
        ⟨"http://v2", "http://a2", "low"⟩ "abcd1234" "t2").1.jobs_status.length
      = 1 ∧
    ((create_render_job ⟨3, 2, "/tmp/ffmpeg", "/app/output"⟩
        (create_render_job ⟨3, 2, "/tmp/ffmpeg", "/app/output"⟩ ⟨[], 0⟩
          ⟨"http://v1", "http://a1", "high"⟩ "abcd1234" "t1").1
        ⟨"http://v2", "http://a2", "low"⟩ "abcd1234" "t2").1.jobs_status.lookup
      "abcd1234").map JobRecord.video_url = some "http://v2" :=
  ⟨rfl, rfl, rfl, rfl⟩

/-- C8 amended: two accepted submissions whose drawn truncated-UUID tokens
differ receive distinct job identifiers, the first registry entry is left
intact by the second insertion, and both entries are present afterwards. -/
theorem C8_distinct_tokens_unique_ids (cfg : Config) (st : ServerState)
    (req1 req2 : RenderRequest) (g1 g2 t1 t2 : String) (hg : g1 ≠ g2)
    (h1 : st.active_jobs < cfg.MAX_CONCURRENT_JOBS)
    (h2 : (create_render_job cfg st req1 g1 t1).1.active_jobs <
      cfg.MAX_CONCURRENT_JOBS) :
    ∃ resp1 resp2 : RenderResponse,
      (create_render_job cfg st req1 g1 t1).2 = Except.ok resp1 ∧
      (create_render_job cfg (create_render_job cfg st req1 g1 t1).1
        req2 g2 t2).2 = Except.ok resp2 ∧
      resp1.job_id ≠ resp2.job_id ∧
      (create_render_job cfg (create_render_job cfg st req1 g1 t1).1
          req2 g2 t2).1.jobs_status.lookup g1 =
        (create_render_job cfg st req1 g1 t1).1.jobs_status.lookup g1 ∧
      ((create_render_job cfg (create_render_job cfg st req1 g1 t1).1
          req2 g2 t2).1.jobs_status.lookup g2).isSome = true := by
  have e1 := create_render_job_accepts cfg st req1 g1 t1 h1
  rw [e1] at h2
  have e2 := create_render_job_accepts cfg _ req2 g2 t2 h2
  refine ⟨⟨g1, "pending", "Job created successfully"⟩,
    ⟨g2, "pending", "Job created successfully"⟩, ?_, ?_, hg, ?_, ?_⟩
  · rw [e1]
  · rw [e1, e2]
  · rw [e1, e2]
    exact lookup_dictInsert_ne _ g1 g2 _ hg
  · rw [e1, e2]
    rw [lookup_dictInsert_self]
    rfl

/-- Witness for C8's amended statement at concrete distinct tokens. -/
theorem C8_distinct_tokens_unique_ids_witness :
    ∃ resp1 resp2 : RenderResponse,
      (create_render_job ⟨3, 2, "/tmp/ffmpeg", "/app/output"⟩ ⟨[], 0⟩
        ⟨"http://v1", "http://a1", "high"⟩ "aaaa1111" "t1").2 =
        Except.ok resp1 ∧
      (create_render_job ⟨3, 2, "/tmp/ffmpeg", "/app/output"⟩
        (create_render_job ⟨3, 2, "/tmp/ffmpeg", "/app/output"⟩ ⟨[], 0⟩
          ⟨"http://v1", "http://a1", "high"⟩ "aaaa1111" "t1").1
        ⟨"http://v2", "http://a2", "low"⟩ "bbbb2222" "t2").2 =
        Except.ok resp2 ∧
      resp1.job_id ≠ resp2.job_id ∧
      (create_render_job ⟨3, 2, "/tmp/ffmpeg", "/app/output"⟩
          (create_render_job ⟨3, 2, "/tmp/ffmpeg", "/app/output"⟩ ⟨[], 0⟩
            ⟨"http://v1", "http://a1", "high"⟩ "aaaa1111" "t1").1
          ⟨"http://v2", "http://a2", "low"⟩ "bbbb2222" "t2").1.jobs_status.lookup
        "aaaa1111" =
        (create_render_job ⟨3, 2, "/tmp/ffmpeg", "/app/output"⟩ ⟨[], 0⟩
          ⟨"http://v1", "http://a1", "high"⟩ "aaaa1111" "t1").1.jobs_status.lookup
        "aaaa1111" ∧
      ((create_render_job ⟨3, 2, "/tmp/ffmpeg", "/app/output"⟩
          (create_render_job ⟨3, 2, "/tmp/ffmpeg", "/app/output"⟩ ⟨[], 0⟩
            ⟨"http://v1", "http://a1", "high"⟩ "aaaa1111" "t1").1
          ⟨"http://v2", "http://a2", "low"⟩ "bbbb2222" "t2").1.jobs_status.lookup
        "bbbb2222").isSome = true :=
  C8_distinct_tokens_unique_ids ⟨3, 2, "/tmp/ffmpeg", "/app/output"⟩ ⟨[], 0⟩
    ⟨"http://v1", "http://a1", "high"⟩ ⟨"http://v2", "http://a2", "low"⟩
    "aaaa1111" "bbbb2222" "t1" "t2" (by decide) (by decide) (by decide)

end RenderApi
